import Mathlib

/-!
Shallow embedding of the batch-transform pipeline composer of
`dygraph/paddlex/det.py` (classes `YOLOv3` and `PPYOLO`, method
`_compose_batch_transform`), together with the minimal model-configuration
state it reads.  All definitions are transcribed from the Python source;
theorems below settle the specification claims about the composer.
-/

/-- Execution mode of the composer (`mode` argument, a string in the source). -/
inductive Mode
  | train
  | eval
  | predict
deriving DecidableEq

/-- Evaluation metric kind (`self.metric`, compared against the string `voc`). -/
inductive Metric
  | voc
  | coco
  | other
deriving DecidableEq

/-- Batch transform operators appearing in `_compose_batch_transform`:
the default operators, the two resize-family operators the loop recognises
via `isinstance`, and `imageOp` for any other caller-supplied transform
(which the `isinstance` check rejects). -/
inductive Op
  | batchPadding (padToStride : Int)
  | normalizeBox
  | padBox (numMaxBoxes : Nat)
  | bboxXYXY2XYWH
  | gt2YoloTarget (anchorMasks : List (List Nat)) (anchors : List (List Int))
      (downsampleRatios : List Int) (numClasses : Nat)
  | batchRandomResize (targetSizes : List Nat) (interp : String)
  | batchRandomResizeByShort (shortSizes : List Nat) (maxSize : Nat) (interp : String)
  | imageOp (name : String)
deriving DecidableEq

/-- Model Config State: the fields of `self` read by `_compose_batch_transform`.
`downsampleRatios` and `numMaxBoxes` are `Option`s because the source reads them
with `getattr(self, _, default)`. -/
structure ModelConfig where
  numClasses : Nat
  anchors : List (List Int)
  anchorMasks : List (List Nat)
  downsampleRatios : Option (List Int)
  numMaxBoxes : Option Nat
  metric : Metric
  trainRandomShapes : List Nat
deriving DecidableEq

/-- The result of `BatchCompose(custom + default, collate_batch=collate_batch)`:
the final ordered operator sequence plus the collation flag. -/
structure BatchCompose where
  transforms : List Op
  collateBatch : Bool
deriving DecidableEq

/-- `isinstance(op, (BatchRandomResize, BatchRandomResizeByShort))`. -/
def isResizeFamily : Op → Bool
  | Op.batchRandomResize _ _ => true
  | Op.batchRandomResizeByShort _ _ _ => true
  | _ => false

/-- `op.__class__.__name__` for the operators above. -/
def className : Op → String
  | Op.batchPadding _ => "_BatchPadding"
  | Op.normalizeBox => "_NormalizeBox"
  | Op.padBox _ => "_PadBox"
  | Op.bboxXYXY2XYWH => "_BboxXYXY2XYWH"
  | Op.gt2YoloTarget _ _ _ _ => "_Gt2YoloTarget"
  | Op.batchRandomResize _ _ => "BatchRandomResize"
  | Op.batchRandomResizeByShort _ _ _ => "BatchRandomResizeByShort"
  | Op.imageOp n => n

/-- The string value of the `mode` argument. -/
def modeString : Mode → String
  | Mode.train => "train"
  | Mode.eval => "eval"
  | Mode.predict => "predict"

/-- The message of the exception raised for a resize-family operator outside
training mode, built exactly as the source formats it. -/
def resizeErrorMsg (cls ms : String) : String :=
  cls ++ " cannot be present in the " ++ ms ++ " transforms. " ++
    "Please check the " ++ ms ++ " transforms."

/-- `default_batch_transforms` as built at the top of
`YOLOv3._compose_batch_transform` (before the post-scan insertion). -/
def yolov3DefaultBatchTransforms (cfg : ModelConfig) (mode : Mode) : List Op :=
  if mode = Mode.train then
    [Op.batchPadding (-1), Op.normalizeBox,
      Op.padBox (cfg.numMaxBoxes.getD 50), Op.bboxXYXY2XYWH,
      Op.gt2YoloTarget cfg.anchorMasks cfg.anchors
        (cfg.downsampleRatios.getD [32, 16, 8]) cfg.numClasses]
  else
    [Op.batchPadding (-1)]

/-- The scan loop of `YOLOv3._compose_batch_transform`: iterates the
caller-supplied transforms, raises for a resize-family operator when
`mode != 'train'`, otherwise does `custom_batch_transforms.insert(0, copy.deepcopy(op))`
(modelled as consing the value) and sets `random_shape_defined`. -/
def yolov3ScanTransforms (mode : Mode) :
    List Op → List Op → Bool → Except String (List Op × Bool)
  | [], custom, rsd => Except.ok (custom, rsd)
  | op :: rest, custom, rsd =>
    if isResizeFamily op then
      if mode = Mode.train then
        yolov3ScanTransforms mode rest (op :: custom) true
      else
        Except.error (resizeErrorMsg (className op) (modeString mode))
    else
      yolov3ScanTransforms mode rest custom rsd

/-- `YOLOv3._compose_batch_transform(transforms, mode)`, with the raised
exception modelled as `Except.error` carrying the formatted message. -/
def yolov3ComposeBatchTransform (cfg : ModelConfig) (transforms : List Op)
    (mode : Mode) : Except String BatchCompose :=
  let defaultBT := yolov3DefaultBatchTransforms cfg mode
  let collateBatch : Bool :=
    if mode = Mode.eval ∧ cfg.metric = Metric.voc then false else true
  match yolov3ScanTransforms mode transforms [] false with
  | Except.error e => Except.error e
  | Except.ok (customBT, randomShapeDefined) =>
    let defaultBT :=
      if randomShapeDefined then defaultBT
      else Op.batchRandomResize cfg.trainRandomShapes "RANDOM" :: defaultBT
    Except.ok ⟨customBT ++ defaultBT, collateBatch⟩

/-- `default_batch_transforms` as built in `PPYOLO._compose_batch_transform`. -/
def ppyoloDefaultBatchTransforms (cfg : ModelConfig) (mode : Mode) : List Op :=
  if mode = Mode.train then
    [Op.batchPadding (-1), Op.normalizeBox,
      Op.padBox (cfg.numMaxBoxes.getD 50), Op.bboxXYXY2XYWH,
      Op.gt2YoloTarget cfg.anchorMasks cfg.anchors
        (cfg.downsampleRatios.getD [32, 16, 8]) cfg.numClasses]
  else
    [Op.batchPadding (-1)]

/-- The scan loop of `PPYOLO._compose_batch_transform`. -/
def ppyoloScanTransforms (mode : Mode) :
    List Op → List Op → Bool → Except String (List Op × Bool)
  | [], custom, rsd => Except.ok (custom, rsd)
  | op :: rest, custom, rsd =>
    if isResizeFamily op then
      if mode = Mode.train then
        ppyoloScanTransforms mode rest (op :: custom) true
      else
        Except.error (resizeErrorMsg (className op) (modeString mode))
    else
      ppyoloScanTransforms mode rest custom rsd

/-- `PPYOLO._compose_batch_transform(transforms, mode)`. -/
def ppyoloComposeBatchTransform (cfg : ModelConfig) (transforms : List Op)
    (mode : Mode) : Except String BatchCompose :=
  let defaultBT := ppyoloDefaultBatchTransforms cfg mode
  let collateBatch : Bool :=
    if mode = Mode.eval ∧ cfg.metric = Metric.voc then false else true
  match ppyoloScanTransforms mode transforms [] false with
  | Except.error e => Except.error e
  | Except.ok (customBT, randomShapeDefined) =>
    let defaultBT :=
      if randomShapeDefined then defaultBT
      else Op.batchRandomResize cfg.trainRandomShapes "RANDOM" :: defaultBT
    Except.ok ⟨customBT ++ defaultBT, collateBatch⟩

/-- Tag a list of freshly constructed operators with consecutive fresh
addresses, starting at `fresh`; returns the tagged list and the next free
address.  Models Python object identity for the operators the composer
constructs itself. -/
def allocOps : List Op → Nat → List (Nat × Op) × Nat
  | [], fresh => ([], fresh)
  | op :: rest, fresh =>
    let r := allocOps rest (fresh + 1)
    ((fresh, op) :: r.1, r.2)

/-- Address-instrumented scan loop: operators carry addresses (Python object
identities), and `copy.deepcopy(op)` is modelled by tagging the copied value
with a fresh address instead of the input operator's address. -/
def yolov3ScanTransformsAddr (mode : Mode) :
    List (Nat × Op) → List (Nat × Op) → Bool → Nat →
      Except String (List (Nat × Op) × Bool × Nat)
  | [], custom, rsd, fresh => Except.ok (custom, rsd, fresh)
  | q :: rest, custom, rsd, fresh =>
    if isResizeFamily q.2 then
      if mode = Mode.train then
        yolov3ScanTransformsAddr mode rest ((fresh, q.2) :: custom) true (fresh + 1)
      else
        Except.error (resizeErrorMsg (className q.2) (modeString mode))
    else
      yolov3ScanTransformsAddr mode rest custom rsd fresh

/-- Address-instrumented `YOLOv3._compose_batch_transform`: every operator in
the returned pipeline is either a default operator freshly constructed by the
composer or a deep copy of an accepted custom operator; in both cases it gets
an address taken from the counter `fresh`, never an input address. -/
def yolov3ComposeBatchTransformAddr (cfg : ModelConfig) (ts : List (Nat × Op))
    (mode : Mode) (fresh : Nat) : Except String (List (Nat × Op) × Bool) :=
  let collateBatch : Bool :=
    if mode = Mode.eval ∧ cfg.metric = Metric.voc then false else true
  match yolov3ScanTransformsAddr mode ts [] false fresh with
  | Except.error e => Except.error e
  | Except.ok (customBT, rsd, fresh') =>
    let d := allocOps (yolov3DefaultBatchTransforms cfg mode) fresh'
    let defaultBT :=
      if rsd then d.1
      else (d.2, Op.batchRandomResize cfg.trainRandomShapes "RANDOM") :: d.1
    Except.ok (customBT ++ defaultBT, collateBatch)

/-- A concrete Model Config State matching the spec scenario: the 9 default
anchors, default anchor masks, `downsample_ratios = [32,16,8]`, 80 classes,
COCO metric, `train_random_shapes = [320,416,512]`. -/
def cfg0 : ModelConfig where
  numClasses := 80
  anchors := [[10, 13], [16, 30], [33, 23], [30, 61], [62, 45],
    [59, 119], [116, 90], [156, 198], [373, 326]]
  anchorMasks := [[6, 7, 8], [3, 4, 5], [0, 1, 2]]
  downsampleRatios := some [32, 16, 8]
  numMaxBoxes := none
  metric := Metric.coco
  trainRandomShapes := [320, 416, 512]

/-- `cfg0` with the VOC metric. -/
def cfgVoc : ModelConfig :=
  { cfg0 with metric := Metric.voc }

/-- A Model Config State violating the spec invariant: 2 anchor masks but
3 downsample ratios. -/
def cfgBad : ModelConfig :=
  { cfg0 with anchorMasks := [[0], [1]] }

example : yolov3ComposeBatchTransform cfg0 [] Mode.train =
    Except.ok ⟨[Op.batchRandomResize [320, 416, 512] "RANDOM",
      Op.batchPadding (-1), Op.normalizeBox, Op.padBox 50, Op.bboxXYXY2XYWH,
      Op.gt2YoloTarget [[6, 7, 8], [3, 4, 5], [0, 1, 2]]
        [[10, 13], [16, 30], [33, 23], [30, 61], [62, 45],
          [59, 119], [116, 90], [156, 198], [373, 326]] [32, 16, 8] 80],
      true⟩ := by
  rfl

example : yolov3ComposeBatchTransform cfg0 [] Mode.eval =
    Except.ok ⟨[Op.batchRandomResize [320, 416, 512] "RANDOM",
      Op.batchPadding (-1)], true⟩ := by
  rfl

example : yolov3ComposeBatchTransform cfgVoc [] Mode.eval =
    Except.ok ⟨[Op.batchRandomResize [320, 416, 512] "RANDOM",
      Op.batchPadding (-1)], false⟩ := by
  rfl

example : yolov3ComposeBatchTransform cfg0
    [Op.batchRandomResize [256] "RANDOM"] Mode.eval =
    Except.error ("BatchRandomResize cannot be present in the eval transforms. " ++
      "Please check the eval transforms.") := by
  rfl

/-- In training mode the scan never fails: it returns the resize-family
operators of the input in reverse order (each `insert(0, ·)` conses to the
front), consed onto the accumulator, and `random_shape_defined` is the
disjunction of the initial flag with the presence of a resize operator. -/
theorem yolov3ScanTransforms_train (ts : List Op) :
    ∀ (custom : List Op) (rsd : Bool),
    yolov3ScanTransforms Mode.train ts custom rsd =
      Except.ok ((ts.filter isResizeFamily).reverse ++ custom,
        rsd || ts.any isResizeFamily) := by
  induction ts with
  | nil => intro custom rsd; simp [yolov3ScanTransforms]
  | cons op rest ih =>
    intro custom rsd
    by_cases hop : isResizeFamily op
    · simp [yolov3ScanTransforms, hop, ih, List.filter_cons, Bool.or_assoc]
    · simp [yolov3ScanTransforms, hop, ih, List.filter_cons]

/-- Full characterisation of the training-mode composer: the output sequence
is the reversed resize-family sublist of the input, then (when no resize
operator was supplied) the synthesized `BatchRandomResize`, then the default
training operators; collation is always on. -/
theorem yolov3ComposeBatchTransform_train (cfg : ModelConfig) (ts : List Op) :
    yolov3ComposeBatchTransform cfg ts Mode.train =
      Except.ok ⟨(ts.filter isResizeFamily).reverse ++
        (if ts.any isResizeFamily then []
          else [Op.batchRandomResize cfg.trainRandomShapes "RANDOM"]) ++
        yolov3DefaultBatchTransforms cfg Mode.train, true⟩ := by
  by_cases hany : ts.any isResizeFamily
  · simp [yolov3ComposeBatchTransform, yolov3ScanTransforms_train, hany]
  · simp [yolov3ComposeBatchTransform, yolov3ScanTransforms_train, hany]

/-- Outside training mode, a resize-family operator in the scanned list makes
the scan fail with the formatted message for (the first) such operator. -/
theorem yolov3ScanTransforms_nontrain_error (mode : Mode) (hm : mode ≠ Mode.train)
    (ts : List Op) (hex : ∃ op ∈ ts, isResizeFamily op = true) :
    ∀ (custom : List Op) (rsd : Bool),
    ∃ op ∈ ts, isResizeFamily op = true ∧
      yolov3ScanTransforms mode ts custom rsd =
        Except.error (resizeErrorMsg (className op) (modeString mode)) := by
  induction ts with
  | nil => simp at hex
  | cons op rest ih =>
    intro custom rsd
    by_cases hop : isResizeFamily op
    · exact ⟨op, List.mem_cons_self op rest, hop, by
        simp [yolov3ScanTransforms, hop, hm]⟩
    · have hex' : ∃ o ∈ rest, isResizeFamily o = true := by
        rcases hex with ⟨o, ho, hro⟩
        rcases List.mem_cons.mp ho with h | h
        · exact absurd (h ▸ hro) (by simp [hop])
        · exact ⟨o, h, hro⟩
      rcases ih hex' custom rsd with ⟨o, ho, hro, hsc⟩
      exact ⟨o, List.mem_cons_of_mem op ho, hro, by
        simp [yolov3ScanTransforms, hop, hsc]⟩

/-- The default training operators contain no resize-family operator
(the only resize operator a training pipeline can end with is the
synthesized one, which is inserted separately). -/
theorem yolov3DefaultBatchTransforms_no_resize (cfg : ModelConfig) (mode : Mode) :
    ∀ op ∈ yolov3DefaultBatchTransforms cfg mode, isResizeFamily op = false := by
  intro op hop
  unfold yolov3DefaultBatchTransforms at hop
  by_cases hm : mode = Mode.train
  · simp [hm] at hop
    rcases hop with rfl | rfl | rfl | rfl | rfl <;> rfl
  · simp [hm] at hop
    rcases hop with rfl; rfl

/-- The two scan loops (YOLOv3 and PPYOLO) are the same function. -/
theorem yolov3ScanTransforms_eq_ppyolo (mode : Mode) (ts : List Op) :
    ∀ (custom : List Op) (rsd : Bool),
    yolov3ScanTransforms mode ts custom rsd = ppyoloScanTransforms mode ts custom rsd := by
  induction ts with
  | nil => intro custom rsd; rfl
  | cons op rest ih =>
    intro custom rsd
    by_cases hop : isResizeFamily op
    · by_cases hm : mode = Mode.train
      · subst hm
        simp [yolov3ScanTransforms, ppyoloScanTransforms, hop, ih]
      · simp [yolov3ScanTransforms, ppyoloScanTransforms, hop, hm]
    · simp [yolov3ScanTransforms, ppyoloScanTransforms, hop, ih]

/-- Whenever the composer succeeds, the collation flag is exactly the
source's `collate_batch` expression. -/
theorem yolov3ComposeBatchTransform_collate (cfg : ModelConfig) (ts : List Op)
    (mode : Mode) (p : BatchCompose)
    (h : yolov3ComposeBatchTransform cfg ts mode = Except.ok p) :
    p.collateBatch =
      if mode = Mode.eval ∧ cfg.metric = Metric.voc then false else true := by
  unfold yolov3ComposeBatchTransform at h
  rcases hs : yolov3ScanTransforms mode ts [] false with e | pr
  · simp [hs] at h
  · rcases pr with ⟨customBT, rsd⟩
    simp only [hs] at h
    cases h
    rfl

/-- Erasing addresses from a freshly allocated list gives back the values. -/
theorem allocOps_map_snd (ops : List Op) :
    ∀ fresh : Nat, (allocOps ops fresh).1.map Prod.snd = ops := by
  induction ops with
  | nil => intro fresh; rfl
  | cons op rest ih => intro fresh; simp [allocOps, ih]

/-- Every address produced by `allocOps`, including the final counter, is at
least the starting counter. -/
theorem allocOps_le (ops : List Op) :
    ∀ fresh : Nat, (∀ q ∈ (allocOps ops fresh).1, fresh ≤ q.1) ∧
      fresh ≤ (allocOps ops fresh).2 := by
  induction ops with
  | nil => intro fresh; exact ⟨by simp [allocOps], Nat.le_refl fresh⟩
  | cons op rest ih =>
    intro fresh
    refine ⟨?_, Nat.le_trans (Nat.le_succ fresh) (ih (fresh + 1)).2⟩
    intro q hq
    simp [allocOps] at hq
    rcases hq with rfl | hq
    · exact Nat.le_refl fresh
    · exact Nat.le_trans (Nat.le_succ fresh) ((ih (fresh + 1)).1 q hq)

/-- Erasing addresses commutes with the scan: a successful instrumented scan
erases to a successful plain scan on the erased inputs. -/
theorem yolov3ScanTransformsAddr_erase (mode : Mode) (ts : List (Nat × Op)) :
    ∀ (custom : List (Nat × Op)) (rsd : Bool) (fresh : Nat)
      (c : List (Nat × Op)) (r : Bool) (f : Nat),
    yolov3ScanTransformsAddr mode ts custom rsd fresh = Except.ok (c, r, f) →
    yolov3ScanTransforms mode (ts.map Prod.snd) (custom.map Prod.snd) rsd =
      Except.ok (c.map Prod.snd, r) := by
  induction ts with
  | nil =>
    intro custom rsd fresh c r f h
    simp [yolov3ScanTransformsAddr] at h
    obtain ⟨rfl, rfl, rfl⟩ := h
    simp [yolov3ScanTransforms]
  | cons q rest ih =>
    intro custom rsd fresh c r f h
    by_cases hop : isResizeFamily q.2
    · by_cases hm : mode = Mode.train
      · subst hm
        simp only [yolov3ScanTransformsAddr, hop, eq_self_iff_true, if_true] at h
        have := ih ((fresh, q.2) :: custom) true (fresh + 1) c r f h
        simpa [yolov3ScanTransforms, hop] using this
      · simp [yolov3ScanTransformsAddr, hop, hm] at h
    · simp only [yolov3ScanTransformsAddr, hop, if_false, Bool.false_eq_true] at h
      have := ih custom rsd fresh c r f h
      simpa [yolov3ScanTransforms, hop] using this

/-- Addresses coming out of a successful instrumented scan either come from
the accumulator or are at least the starting counter; the final counter is at
least the starting counter. -/
theorem yolov3ScanTransformsAddr_fresh (mode : Mode) (ts : List (Nat × Op)) :
    ∀ (custom : List (Nat × Op)) (rsd : Bool) (fresh : Nat)
      (c : List (Nat × Op)) (r : Bool) (f : Nat) (n : Nat),
    n ≤ fresh →
    yolov3ScanTransformsAddr mode ts custom rsd fresh = Except.ok (c, r, f) →
    (∀ q ∈ c, q ∈ custom ∨ n ≤ q.1) ∧ n ≤ f := by
  induction ts with
  | nil =>
    intro custom rsd fresh c r f n hn h
    simp [yolov3ScanTransformsAddr] at h
    obtain ⟨rfl, rfl, rfl⟩ := h
    exact ⟨fun q hq => Or.inl hq, hn⟩
  | cons q rest ih =>
    intro custom rsd fresh c r f n hn h
    by_cases hop : isResizeFamily q.2
    · by_cases hm : mode = Mode.train
      · subst hm
        simp only [yolov3ScanTransformsAddr, hop, eq_self_iff_true, if_true] at h
        have hrec := ih ((fresh, q.2) :: custom) true (fresh + 1) c r f n
          (Nat.le_trans hn (Nat.le_succ fresh)) h
        refine ⟨?_, hrec.2⟩
        intro p hp
        rcases hrec.1 p hp with hmem | hle
        · rcases List.mem_cons.mp hmem with rfl | hmem'
          · exact Or.inr hn
          · exact Or.inl hmem'
        · exact Or.inr hle
      · simp [yolov3ScanTransformsAddr, hop, hm] at h
    · simp only [yolov3ScanTransformsAddr, hop, if_false, Bool.false_eq_true] at h
      exact ih custom rsd fresh c r f n hn h

/-- C1: for every mode other than train, a custom transform list containing a
resize-family operator makes the composer abort with an error whose message
is the source's format string instantiated with the operator's class name and
the offending mode, and no pipeline is returned. -/
theorem c1_resize_rejected_outside_train (cfg : ModelConfig) (ts : List Op)
    (mode : Mode) (hm : mode ≠ Mode.train)
    (hex : ∃ op ∈ ts, isResizeFamily op = true) :
    ∃ op ∈ ts, isResizeFamily op = true ∧
      yolov3ComposeBatchTransform cfg ts mode =
        Except.error (resizeErrorMsg (className op) (modeString mode)) := by
  rcases yolov3ScanTransforms_nontrain_error mode hm ts hex [] false with
    ⟨op, ho, hro, hsc⟩
  exact ⟨op, ho, hro, by simp [yolov3ComposeBatchTransform, hsc]⟩

/-- Witness for C1: a `BatchRandomResizeByShort` in an eval transform list is
rejected with the formatted message. -/
theorem c1_resize_rejected_outside_train_witness :
    ∃ op ∈ [Op.batchRandomResizeByShort [512] 1024 "RANDOM"],
      isResizeFamily op = true ∧
      yolov3ComposeBatchTransform cfg0
          [Op.batchRandomResizeByShort [512] 1024 "RANDOM"] Mode.eval =
        Except.error (resizeErrorMsg (className op) (modeString Mode.eval)) :=
  c1_resize_rejected_outside_train cfg0 _ Mode.eval (by decide)
    ⟨Op.batchRandomResizeByShort [512] 1024 "RANDOM", by simp, rfl⟩

/-- C2 counterexample: with 2 anchor masks but 3 downsample ratios — a
violation of the claimed invariant — the composer does not fail: it returns a
complete pipeline, so no invariant check happens at invocation. -/
theorem c2_counterexample_no_failure :
    cfgBad.anchorMasks.length ≠ (cfgBad.downsampleRatios.getD [32, 16, 8]).length ∧
    yolov3ComposeBatchTransform cfgBad [] Mode.train =
      Except.ok ⟨[Op.batchRandomResize [320, 416, 512] "RANDOM",
        Op.batchPadding (-1), Op.normalizeBox, Op.padBox 50, Op.bboxXYXY2XYWH,
        Op.gt2YoloTarget [[0], [1]] cfgBad.anchors [32, 16, 8] 80], true⟩ :=
  ⟨by decide, rfl⟩

/-- C2 amended: the composer never checks the
`len(anchor_masks) == len(downsample_ratios)` invariant; for every Model
Config State (compliant or not) the training-mode build succeeds and embeds
`anchor_masks` and `downsample_ratios` unchanged into `GenerateGridTargets`. -/
theorem c2_invariant_never_checked (cfg : ModelConfig) (ts : List Op) :
    ∃ p, yolov3ComposeBatchTransform cfg ts Mode.train = Except.ok p ∧
      Op.gt2YoloTarget cfg.anchorMasks cfg.anchors
        (cfg.downsampleRatios.getD [32, 16, 8]) cfg.numClasses ∈ p.transforms := by
  refine ⟨_, yolov3ComposeBatchTransform_train cfg ts, ?_⟩
  simp [yolov3DefaultBatchTransforms]

/-- C3 counterexample: two `RandomResize` operators supplied in training mode
are both accepted, but their relative order in the output is the reverse of
their order in the input list (each is inserted at position 0). -/
theorem c3_counterexample_order_not_preserved :
    yolov3ComposeBatchTransform cfg0
        [Op.batchRandomResize [256] "RANDOM", Op.batchRandomResize [288] "RANDOM"]
        Mode.train =
      Except.ok ⟨Op.batchRandomResize [288] "RANDOM" ::
        Op.batchRandomResize [256] "RANDOM" ::
        yolov3DefaultBatchTransforms cfg0 Mode.train, true⟩ ∧
    ([Op.batchRandomResize [288] "RANDOM", Op.batchRandomResize [256] "RANDOM"] :
        List Op) ≠
      [Op.batchRandomResize [256] "RANDOM", Op.batchRandomResize [288] "RANDOM"] :=
  ⟨rfl, by decide⟩

/-- C3 amended: in training mode with at least two resize-family custom
operators, all of them are accepted and placed before every default operator
(no default operator is resize-family), but their relative order among
themselves is the REVERSE of their order in the input list. -/
theorem c3_resizes_accepted_in_reverse_order (cfg : ModelConfig) (ts : List Op)
    (h : 2 ≤ (ts.filter isResizeFamily).length) :
    ∃ p, yolov3ComposeBatchTransform cfg ts Mode.train = Except.ok p ∧
      p.transforms = (ts.filter isResizeFamily).reverse ++
        yolov3DefaultBatchTransforms cfg Mode.train ∧
      ∀ op ∈ yolov3DefaultBatchTransforms cfg Mode.train,
        isResizeFamily op = false := by
  have hne : ts.filter isResizeFamily ≠ [] := by
    intro hnil
    rw [hnil] at h
    simp at h
  have hany : ts.any isResizeFamily = true := by
    rcases List.exists_mem_of_ne_nil _ hne with ⟨x, hx⟩
    rcases List.mem_filter.mp hx with ⟨hxm, hxr⟩
    exact List.any_eq_true.mpr ⟨x, hxm, hxr⟩
  refine ⟨_, yolov3ComposeBatchTransform_train cfg ts, ?_,
    yolov3DefaultBatchTransforms_no_resize cfg Mode.train⟩
  simp [hany]

/-- Witness for C3 amended at the two-resize counterexample input. -/
theorem c3_resizes_accepted_in_reverse_order_witness :
    ∃ p, yolov3ComposeBatchTransform cfg0
        [Op.batchRandomResize [256] "RANDOM", Op.batchRandomResize [288] "RANDOM"]
        Mode.train = Except.ok p ∧
      p.transforms = (([Op.batchRandomResize [256] "RANDOM",
          Op.batchRandomResize [288] "RANDOM"] : List Op).filter
            isResizeFamily).reverse ++
        yolov3DefaultBatchTransforms cfg0 Mode.train ∧
      ∀ op ∈ yolov3DefaultBatchTransforms cfg0 Mode.train,
        isResizeFamily op = false :=
  c3_resizes_accepted_in_reverse_order cfg0 _ (by decide)

/-- C4 counterexample: a non-resize custom operator (`BatchPad` with stride 7)
supplied in training mode does not appear anywhere in the returned pipeline —
the scan loop only ever transfers resize-family operators. -/
theorem c4_counterexample_non_resize_dropped :
    yolov3ComposeBatchTransform cfg0 [Op.batchPadding 7] Mode.train =
      Except.ok ⟨Op.batchRandomResize [320, 416, 512] "RANDOM" ::
        yolov3DefaultBatchTransforms cfg0 Mode.train, true⟩ ∧
    Op.batchPadding 7 ∉ (Op.batchRandomResize [320, 416, 512] "RANDOM" ::
      yolov3DefaultBatchTransforms cfg0 Mode.train) :=
  ⟨rfl, by decide⟩

/-- C4 amended: in training mode the output sequence is the reversed
resize-family sublist of the custom list, then (when no custom resize is
present) the synthesized `RandomResize`, then the defaults in the fixed order
`BatchPad, NormalizeBox, PadBox, BoxFormatConvert, GenerateGridTargets`;
non-resize custom operators are discarded, not placed before `BatchPad`. -/
theorem c4_train_output_structure (cfg : ModelConfig) (ts : List Op) :
    yolov3ComposeBatchTransform cfg ts Mode.train =
      Except.ok ⟨(ts.filter isResizeFamily).reverse ++
        (if ts.any isResizeFamily then []
          else [Op.batchRandomResize cfg.trainRandomShapes "RANDOM"]) ++
        [Op.batchPadding (-1), Op.normalizeBox,
          Op.padBox (cfg.numMaxBoxes.getD 50), Op.bboxXYXY2XYWH,
          Op.gt2YoloTarget cfg.anchorMasks cfg.anchors
            (cfg.downsampleRatios.getD [32, 16, 8]) cfg.numClasses], true⟩ :=
  yolov3ComposeBatchTransform_train cfg ts

/-- C5: in training mode with an empty custom list the pipeline is exactly the
6-operator sequence `RandomResize(train_random_shapes, RANDOM)`, `BatchPad(-1)`,
`NormalizeBox`, `PadBox(num_max_boxes, default 50)`, `BoxFormatConvert`,
`GenerateGridTargets(anchor_masks, anchors, downsample_ratios default [32,16,8],
num_classes)`, and collation is on (in particular when the metric is COCO). -/
theorem c5_empty_train_pipeline (cfg : ModelConfig) :
    yolov3ComposeBatchTransform cfg [] Mode.train =
      Except.ok ⟨[Op.batchRandomResize cfg.trainRandomShapes "RANDOM",
        Op.batchPadding (-1), Op.normalizeBox,
        Op.padBox (cfg.numMaxBoxes.getD 50), Op.bboxXYXY2XYWH,
        Op.gt2YoloTarget cfg.anchorMasks cfg.anchors
          (cfg.downsampleRatios.getD [32, 16, 8]) cfg.numClasses], true⟩ :=
  rfl

/-- C6: whenever the composer returns a pipeline, its collation flag is false
exactly when the mode is eval and the metric is VOC. -/
theorem c6_collation_policy (cfg : ModelConfig) (ts : List Op) (mode : Mode)
    (p : BatchCompose)
    (h : yolov3ComposeBatchTransform cfg ts mode = Except.ok p) :
    (p.collateBatch = false ↔ (mode = Mode.eval ∧ cfg.metric = Metric.voc)) := by
  have hc := yolov3ComposeBatchTransform_collate cfg ts mode p h
  by_cases hvm : mode = Mode.eval ∧ cfg.metric = Metric.voc
  · simp only [hvm, if_true] at hc
    simp [hc, hvm]
  · simp only [hvm, if_false] at hc
    simp [hc, hvm]

/-- Witness for C6: eval mode with the VOC metric yields collation off. -/
theorem c6_collation_policy_witness :
    ((BatchCompose.mk [Op.batchRandomResize [320, 416, 512] "RANDOM",
        Op.batchPadding (-1)] false).collateBatch = false ↔
      (Mode.eval = Mode.eval ∧ cfgVoc.metric = Metric.voc)) :=
  c6_collation_policy cfgVoc [] Mode.eval _ rfl

/-- C7 counterexample: a custom list containing exactly one `RandomResize`
(sizes [256, 288]) followed by a `RandomResizeByShort` is accepted in training
mode, but the returned pipeline's first operator is the `RandomResizeByShort`,
not the `RandomResize`. -/
theorem c7_counterexample_first_op :
    yolov3ComposeBatchTransform cfg0
        [Op.batchRandomResize [256, 288] "RANDOM",
          Op.batchRandomResizeByShort [512] 1024 "RANDOM"] Mode.train =
      Except.ok ⟨Op.batchRandomResizeByShort [512] 1024 "RANDOM" ::
        Op.batchRandomResize [256, 288] "RANDOM" ::
        yolov3DefaultBatchTransforms cfg0 Mode.train, true⟩ ∧
    (Op.batchRandomResizeByShort [512] 1024 "RANDOM" ::
        Op.batchRandomResize [256, 288] "RANDOM" ::
        yolov3DefaultBatchTransforms cfg0 Mode.train).head? ≠
      some (Op.batchRandomResize [256, 288] "RANDOM") :=
  ⟨rfl, by decide⟩

/-- C7 amended: in training mode, when the custom list's resize-family
operators consist of exactly one `RandomResize` (and no `RandomResizeByShort`),
the returned pipeline's first operator is that operator, its tail is exactly
the default training sequence (so no default resize is synthesized), and no
other resize-family operator appears anywhere in the sequence. -/
theorem c7_single_random_resize_first (cfg : ModelConfig) (ts : List Op)
    (sizes : List Nat) (itp : String)
    (h : ts.filter isResizeFamily = [Op.batchRandomResize sizes itp]) :
    ∃ p, yolov3ComposeBatchTransform cfg ts Mode.train = Except.ok p ∧
      p.transforms = Op.batchRandomResize sizes itp ::
        yolov3DefaultBatchTransforms cfg Mode.train ∧
      ∀ op ∈ yolov3DefaultBatchTransforms cfg Mode.train,
        isResizeFamily op = false := by
  have hany : ts.any isResizeFamily = true := by
    have hx : Op.batchRandomResize sizes itp ∈ ts.filter isResizeFamily := by
      simp [h]
    rcases List.mem_filter.mp hx with ⟨hxm, hxr⟩
    exact List.any_eq_true.mpr ⟨_, hxm, hxr⟩
  refine ⟨_, yolov3ComposeBatchTransform_train cfg ts, ?_,
    yolov3DefaultBatchTransforms_no_resize cfg Mode.train⟩
  simp [h, hany]

/-- Witness for C7 amended at a singleton `RandomResize([256, 288])` input. -/
theorem c7_single_random_resize_first_witness :
    ∃ p, yolov3ComposeBatchTransform cfg0
        [Op.batchRandomResize [256, 288] "RANDOM"] Mode.train = Except.ok p ∧
      p.transforms = Op.batchRandomResize [256, 288] "RANDOM" ::
        yolov3DefaultBatchTransforms cfg0 Mode.train ∧
      ∀ op ∈ yolov3DefaultBatchTransforms cfg0 Mode.train,
        isResizeFamily op = false :=
  c7_single_random_resize_first cfg0 _ [256, 288] "RANDOM" (by decide)

/-- C9: the YOLOv3 composer and the PPYOLO composer are behaviorally
identical — on every Model Config State, mode and custom transform list they
return the same result (same error, or same operator sequence and flag). -/
theorem c9_families_behaviorally_equal (cfg : ModelConfig) (ts : List Op)
    (mode : Mode) :
    yolov3ComposeBatchTransform cfg ts mode = ppyoloComposeBatchTransform cfg ts mode := by
  unfold yolov3ComposeBatchTransform ppyoloComposeBatchTransform
  rw [yolov3ScanTransforms_eq_ppyolo]
  rfl

/-- C10: evaluating the code at the failing input — eval (and predict) mode
with an empty custom list — shows the returned pipeline is
`[RandomResize(train_random_shapes, RANDOM), BatchPad(-1)]`, not the single
operator `[BatchPad(-1)]` the spec requires: the synthesized random resize is
inserted without a training-mode guard. -/
theorem c10_eval_predict_pipeline_bug :
    yolov3ComposeBatchTransform cfg0 [] Mode.eval =
      Except.ok ⟨[Op.batchRandomResize [320, 416, 512] "RANDOM",
        Op.batchPadding (-1)], true⟩ ∧
    yolov3ComposeBatchTransform cfg0 [] Mode.predict =
      Except.ok ⟨[Op.batchRandomResize [320, 416, 512] "RANDOM",
        Op.batchPadding (-1)], true⟩ ∧
    ([Op.batchRandomResize [320, 416, 512] "RANDOM", Op.batchPadding (-1)] :
      List Op) ≠ [Op.batchPadding (-1)] :=
  ⟨rfl, rfl, by decide⟩

/-- C8: the composer is pure — two calls on identical inputs give structurally
equal results; the plain composer agrees with the address-instrumented one
after erasing addresses; and when every input operator's address is below the
allocation counter, every operator in the returned pipeline has an address
distinct from every input operator's address (accepted operators are deep
copies, defaults are freshly constructed — nothing is aliased, and the input
list itself is never written to). -/
theorem c8_composer_pure (cfg : ModelConfig) (ts : List (Nat × Op)) (mode : Mode)
    (n : Nat) (r : List (Nat × Op) × Bool)
    (hin : ∀ q ∈ ts, q.1 < n)
    (h : yolov3ComposeBatchTransformAddr cfg ts mode n = Except.ok r) :
    yolov3ComposeBatchTransform cfg (ts.map Prod.snd) mode =
        yolov3ComposeBatchTransform cfg (ts.map Prod.snd) mode ∧
    yolov3ComposeBatchTransform cfg (ts.map Prod.snd) mode =
        Except.ok ⟨r.1.map Prod.snd, r.2⟩ ∧
    ∀ q ∈ r.1, ∀ q' ∈ ts, q.1 ≠ q'.1 := by
  obtain ⟨r1, r2⟩ := r
  unfold yolov3ComposeBatchTransformAddr at h
  rcases hs : yolov3ScanTransformsAddr mode ts [] false n with e | tr
  · simp [hs] at h
  · rcases tr with ⟨customBT, rsd, fresh'⟩
    simp only [hs] at h
    have he := yolov3ScanTransformsAddr_erase mode ts [] false n customBT rsd fresh' hs
    have hf := yolov3ScanTransformsAddr_fresh mode ts [] false n customBT rsd fresh' n
      (Nat.le_refl n) hs
    simp only [Except.ok.injEq, Prod.mk.injEq] at h
    obtain ⟨h1, h2⟩ := h
    refine ⟨rfl, ?_, ?_⟩
    · unfold yolov3ComposeBatchTransform
      simp only [List.map_nil] at he
      rw [← h1, ← h2]
      by_cases hr : rsd
      · simp [he, hr, List.map_append, allocOps_map_snd]
      · simp [he, hr, List.map_append, allocOps_map_snd]
    · intro q hq q' hq'
      rw [← h1] at hq
      have hq1 : n ≤ q.1 := by
        rcases List.mem_append.mp hq with hqc | hqd
        · rcases hf.1 q hqc with hmem | hle
          · simp at hmem
          · exact hle
        · by_cases hr : rsd
          · rw [if_pos hr] at hqd
            exact Nat.le_trans hf.2
              ((allocOps_le (yolov3DefaultBatchTransforms cfg mode) fresh').1 q hqd)
          · rw [if_neg hr] at hqd
            rcases List.mem_cons.mp hqd with rfl | hqd'
            · exact Nat.le_trans hf.2
                (allocOps_le (yolov3DefaultBatchTransforms cfg mode) fresh').2
            · exact Nat.le_trans hf.2
                ((allocOps_le (yolov3DefaultBatchTransforms cfg mode) fresh').1 q hqd')
      exact (Nat.lt_of_lt_of_le (hin q' hq') hq1).ne'

/-- Witness for C8: one custom `RandomResize` at address 0, counter 5 — the
pipeline's operators carry addresses 5 through 10, all distinct from 0, and
erase to the plain composer's output. -/
theorem c8_composer_pure_witness :
    yolov3ComposeBatchTransform cfg0 [Op.batchRandomResize [256] "RANDOM"]
        Mode.train =
      yolov3ComposeBatchTransform cfg0 [Op.batchRandomResize [256] "RANDOM"]
        Mode.train ∧
    yolov3ComposeBatchTransform cfg0 [Op.batchRandomResize [256] "RANDOM"]
        Mode.train =
      Except.ok ⟨[Op.batchRandomResize [256] "RANDOM", Op.batchPadding (-1),
        Op.normalizeBox, Op.padBox 50, Op.bboxXYXY2XYWH,
        Op.gt2YoloTarget [[6, 7, 8], [3, 4, 5], [0, 1, 2]]
          [[10, 13], [16, 30], [33, 23], [30, 61], [62, 45],
            [59, 119], [116, 90], [156, 198], [373, 326]] [32, 16, 8] 80], true⟩ ∧
    ∀ q ∈ ([(5, Op.batchRandomResize [256] "RANDOM"), (6, Op.batchPadding (-1)),
        (7, Op.normalizeBox), (8, Op.padBox 50), (9, Op.bboxXYXY2XYWH),
        (10, Op.gt2YoloTarget [[6, 7, 8], [3, 4, 5], [0, 1, 2]]
          [[10, 13], [16, 30], [33, 23], [30, 61], [62, 45],
            [59, 119], [116, 90], [156, 198], [373, 326]] [32, 16, 8] 80)] :
        List (Nat × Op)),
      ∀ q' ∈ ([(0, Op.batchRandomResize [256] "RANDOM")] : List (Nat × Op)),
        q.1 ≠ q'.1 :=
  c8_composer_pure cfg0 [(0, Op.batchRandomResize [256] "RANDOM")] Mode.train 5
    ([(5, Op.batchRandomResize [256] "RANDOM"), (6, Op.batchPadding (-1)),
      (7, Op.normalizeBox), (8, Op.padBox 50), (9, Op.bboxXYXY2XYWH),
      (10, Op.gt2YoloTarget [[6, 7, 8], [3, 4, 5], [0, 1, 2]]
        [[10, 13], [16, 30], [33, 23], [30, 61], [62, 45],
          [59, 119], [116, 90], [156, 198], [373, 326]] [32, 16, 8] 80)], true)
    (by decide) rfl
